import Mathlib

/-!
Shallow embedding of src/analyze_impossible_exclusions.py.

Modelling conventions:
- A pandas cell that may be NaN/missing is an Option String; the pandas
  str() coercion of such a cell is pyStr (str of NaN is the text "nan").
- A DataFrame is a List Row in file order; boolean-mask filtering is
  List.filter, which keeps duplicates and order, as pandas does.
- JSON-like values (the eval blobs of webarena_tests.json and the
  "Unknown" sentinel string) are the inductive Json below.
- Python float rates are modelled as exact rationals; every claim about a
  rate either compares two syntactically identical computations or
  evaluates them at inputs where the binary float result is exact.
- The wall-clock analysis_date fields are outside the embedding.
- The first unguarded division in the source is pass_count/total_possible
  at the pass-rate print (line 77), reached before any report is built or
  written; analyze models the run as failing there, with no output, when
  the possible subset is empty.
-/

/-- One row of Latest_Runs_Dataset.csv. Columns other than task_id may be
missing (NaN), which Option models. -/
structure Row where
  task_id : Int
  result : Option String
  site : Option String
  intent : Option String
  created_at : Option String
  run_id : Option String
  result_override_reason : Option String
deriving DecidableEq

/-- Minimal JSON-ish value type: enough to represent the eval blobs of
webarena_tests.json, the "No eval data" sentinel object and the "Unknown"
sentinel string. -/
inductive Json where
  | str : String → Json
  | arr : List Json → Json
  | obj : List (String × Json) → Json

/-- One entry of webarena_tests.json: a task_id and an optional eval blob. -/
structure TestDef where
  task_id : Int
  eval : Option Json

/-- Python truthiness of a JSON value: empty containers and the empty
string are falsy (the source tests the eval dict with a bare if). -/
def jsonTruthy : Json → Bool
  | Json.str s => !(s == "")
  | Json.arr l => !l.isEmpty
  | Json.obj l => !l.isEmpty

/-- The sentinel stored when a test has no (or an empty/falsy) eval blob. -/
def noEvalSentinel : Json :=
  Json.obj [("eval_types", Json.arr []), ("note", Json.str "No eval data")]

/-- load_webarena_tests, lines 16-33: build the task_id to expected-answer
mapping. A Python dict is an association list in which a later binding for
the same key overwrites an earlier one. -/
def buildAnswers (tests : List TestDef) : List (Int × Json) :=
  tests.map (fun t =>
    let e := (t.eval).getD (Json.obj [])
    (t.task_id, if jsonTruthy e then e else noEvalSentinel))

/-- Python dict lookup on the association list: the last binding for a key
wins, none when the key is absent. -/
def dictFind (m : List (Int × Json)) (k : Int) : Option Json :=
  (m.reverse.find? (fun p => p.1 == k)).map (fun p => p.2)

/-- expected_answers.get(task_id, "Unknown"), lines 98 and 113. -/
def expectedAnswerFor (answers : List (Int × Json)) (tid : Int) : Json :=
  match dictFind answers tid with
  | some v => v
  | none => Json.str "Unknown"

/-- The two hard-coded exclusion labels, line 49. -/
def impossibleLabels : List String :=
  ["Exclude - Invalid Answer", "Exclude - Invalid Environment"]

/-- Series.isin on one cell: a missing (NaN) cell is never in the list. -/
def seriesIsin (v : Option String) (labels : List String) : Bool :=
  match v with
  | none => false
  | some s => labels.contains s

/-- The boolean mask of line 49: result isin the two exclusion labels. -/
def isImpossible (r : Row) : Bool :=
  seriesIsin r.result impossibleLabels

/-- Line 49: impossible_tasks = df[mask]. -/
def impossibleTasks (df : List Row) : List Row :=
  df.filter isImpossible

/-- Line 50: possible_tasks = df[~mask]. -/
def possibleTasks (df : List Row) : List Row :=
  df.filter (fun r => !isImpossible r)

/-- Series.value_counts on the result column of a row list: the distinct
non-null values with their frequencies. The descending-by-count ordering
of the real value_counts is not modelled; no claim depends on the order of
the pairs, only on lookups and on the counts themselves. -/
def valueCounts (rows : List Row) : List (String × Nat) :=
  let vals := rows.filterMap (fun r => r.result)
  vals.dedup.map (fun v => (v, vals.count v))

/-- Series.get(key, default) on a value_counts result, line 72. -/
def seriesGet (vc : List (String × Nat)) (k : String) (d : Nat) : Nat :=
  match vc.find? (fun p => p.1 == k) with
  | some p => p.2
  | none => d

/-- Line 73: total_possible = len(possible_tasks). -/
def possibleTotal (df : List Row) : Nat :=
  (possibleTasks df).length

/-- Line 72: pass_count = possible_results.get("PASS", 0). -/
def passCount (df : List Row) : Nat :=
  seriesGet (valueCounts (possibleTasks df)) "PASS" 0

/-- Line 74: fail_count = total_possible - pass_count. -/
def failCount (df : List Row) : Nat :=
  possibleTotal df - passCount df

/-- str() of a possibly-missing pandas cell: str(NaN) is the text "nan". -/
def pyStr (v : Option String) : String :=
  match v with
  | none => "nan"
  | some s => s

/-- Lines 97 and 112: str(x) if pd.notna(x) else None. -/
def overrideReasonField (v : Option String) : Option String :=
  if v.isSome then some (pyStr v) else none

/-- A Classified Record of the JSON reports, lines 90-99 and 105-114. -/
structure ClassifiedRecord where
  task_id : Int
  result : String
  site : String
  intent : String
  created_at : String
  run_id : String
  result_override_reason : Option String
  expected_answer : Json

/-- Lines 88-99 and 103-114: build one record from one row. -/
def buildRecord (answers : List (Int × Json)) (row : Row) : ClassifiedRecord :=
  { task_id := row.task_id
    result := pyStr row.result
    site := pyStr row.site
    intent := pyStr row.intent
    created_at := pyStr row.created_at
    run_id := pyStr row.run_id
    result_override_reason := overrideReasonField row.result_override_reason
    expected_answer := expectedAnswerFor answers row.task_id }

/-- Lines 88-100: excluded_tasks, one record per impossible row. -/
def excludedTasks (answers : List (Int × Json)) (df : List Row) : List ClassifiedRecord :=
  (impossibleTasks df).map (buildRecord answers)

/-- Lines 103-115: included_tasks, one record per possible row. -/
def includedTasks (answers : List (Int × Json)) (df : List Row) : List ClassifiedRecord :=
  (possibleTasks df).map (buildRecord answers)

/-- pass_rate = pass_count / total_possible * 100, lines 136 and 154. -/
def passRate (df : List Row) : ℚ :=
  (passCount df : ℚ) / (possibleTotal df : ℚ) * 100

/-- fail_rate = fail_count / total_possible * 100, lines 137 and 155. -/
def failRate (df : List Row) : ℚ :=
  (failCount df : ℚ) / (possibleTotal df : ℚ) * 100

/-- exclusion_rate = len(impossible_tasks) / len(df) * 100, line 129. -/
def exclusionRate (df : List Row) : ℚ :=
  ((impossibleTasks df).length : ℚ) / (df.length : ℚ) * 100

/-- analysis_metadata, lines 119-124 (the analysis_date timestamp is
outside the embedding). -/
structure AnalysisMetadata where
  dataset_file : String
  total_tasks : Nat
  analysis_purpose : String

/-- summary_statistics, lines 125-130. -/
structure SummaryStats where
  total_tasks : Nat
  impossible_tasks : Nat
  possible_tasks : Nat
  exclusion_rate : ℚ

/-- possible_tasks_results, lines 132-139. -/
structure PossibleResults where
  total_count : Nat
  pass_count : Nat
  fail_count : Nat
  pass_rate : ℚ
  fail_rate : ℚ
  result_breakdown : List (String × Nat)

/-- The detailed report document, lines 118-142. -/
structure DetailedReport where
  analysis_metadata : AnalysisMetadata
  summary_statistics : SummaryStats
  impossible_task_breakdown : List (String × Nat)
  possible_tasks_results : PossibleResults
  excluded_tasks : List ClassifiedRecord
  included_tasks : List ClassifiedRecord

/-- The summary report document, lines 149-156 (timestamp omitted). -/
structure SummaryReport where
  total_tasks : Nat
  excluded_count : Nat
  included_count : Nat
  pass_rate_possible_only : ℚ
  fail_rate_possible_only : ℚ

/-- Lines 125-130. -/
def summaryStatistics (df : List Row) : SummaryStats :=
  { total_tasks := df.length
    impossible_tasks := (impossibleTasks df).length
    possible_tasks := (possibleTasks df).length
    exclusion_rate := exclusionRate df }

/-- Lines 132-139. -/
def possibleTasksResults (df : List Row) : PossibleResults :=
  { total_count := (possibleTasks df).length
    pass_count := passCount df
    fail_count := failCount df
    pass_rate := passRate df
    fail_rate := failRate df
    result_breakdown := valueCounts (possibleTasks df) }

/-- Lines 118-142: the detailed report. -/
def detailedReport (answers : List (Int × Json)) (df : List Row) : DetailedReport :=
  { analysis_metadata :=
      { dataset_file := "Latest_Runs_Dataset.csv"
        total_tasks := df.length
        analysis_purpose := "Exclude tasks that cannot be run due to environment configuration & have incorrect expected outcomes. Calculate pass/fail for possible tasks only." }
    summary_statistics := summaryStatistics df
    impossible_task_breakdown := valueCounts (impossibleTasks df)
    possible_tasks_results := possibleTasksResults df
    excluded_tasks := excludedTasks answers df
    included_tasks := includedTasks answers df }

/-- Lines 149-156: the summary report. -/
def summaryReport (df : List Row) : SummaryReport :=
  { total_tasks := df.length
    excluded_count := (impossibleTasks df).length
    included_count := (possibleTasks df).length
    pass_rate_possible_only := passRate df
    fail_rate_possible_only := failRate df }

/-- The analysis body, lines 46-159, after both loads. When the possible
subset is empty the run dies with ZeroDivisionError at the pass-rate print
of line 77 (pass_count/total_possible with total_possible = 0), before any
report is assembled or written; otherwise both documents are produced. -/
def analyze (answers : List (Int × Json)) (df : List Row) :
    Except String (DetailedReport × SummaryReport) :=
  if possibleTotal df = 0 then
    Except.error "ZeroDivisionError"
  else
    Except.ok (detailedReport answers df, summaryReport df)

/-- One of the two documents written to disk. -/
inductive OutputDoc where
  | detailed : DetailedReport → OutputDoc
  | summary : SummaryReport → OutputDoc

/-- The whole script run, lines 35-185. The inputs are None when the
corresponding file is missing/unreadable; both loads (lines 41 and 44)
happen strictly before the first write (line 145). The second component
lists the file writes actually performed, in order. -/
def runScript (tests : Option (List TestDef)) (csv : Option (List Row)) :
    Option String × List (String × OutputDoc) :=
  match tests with
  | none => (some "FileNotFoundError: webarena_tests.json", [])
  | some ts =>
    match csv with
    | none => (some "FileNotFoundError: Latest_Runs_Dataset.csv", [])
    | some df =>
      match analyze (buildAnswers ts) df with
      | Except.error e => (some e, [])
      | Except.ok (d, s) =>
        (none,
         [("impossible_exclusions_analysis.json", OutputDoc.detailed d),
          ("impossible_exclusions_summary.json", OutputDoc.summary s)])

/-! Concrete example data used by witnesses and the scenario claim. -/

/-- Row 1 of the scenario of spec section 8 item 6. -/
def exRow1 : Row :=
  { task_id := 1, result := some "PASS", site := none, intent := none,
    created_at := none, run_id := none, result_override_reason := none }

/-- Row 2 of the scenario. -/
def exRow2 : Row :=
  { task_id := 2, result := some "Exclude - Invalid Environment", site := none,
    intent := none, created_at := none, run_id := none,
    result_override_reason := none }

/-- Row 3 of the scenario. -/
def exRow3 : Row :=
  { task_id := 3, result := some "FAIL", site := none, intent := none,
    created_at := none, run_id := none, result_override_reason := none }

/-- The 3-row scenario dataset. -/
def exampleRows : List Row := [exRow1, exRow2, exRow3]

/-- A row in which every nullable cell is missing. -/
def exRowNull : Row :=
  { task_id := 7, result := none, site := none, intent := none,
    created_at := none, run_id := none, result_override_reason := none }

/-- A small concrete answers map. -/
def answersEx : List (Int × Json) := [(1, Json.str "a1")]

/-! Helper lemmas shared between claims. -/

/-- The two filters of lines 49-50 permute the dataset. -/
lemma partition_perm (df : List Row) :
    (impossibleTasks df ++ possibleTasks df).Perm df :=
  List.filter_append_perm isImpossible df

/-- The two subset lengths add up to the dataset length. -/
lemma length_partition (df : List Row) :
    (impossibleTasks df).length + (possibleTasks df).length = df.length := by
  have h := (partition_perm df).length_eq
  simpa using h

/-- Every row value keeps its multiplicity across the split. -/
lemma count_partition (df : List Row) (r : Row) :
    (impossibleTasks df).count r + (possibleTasks df).count r = df.count r := by
  have h := (partition_perm df).count_eq r
  simpa [List.count_append] using h

/-- Looking a key up in a map of (value, f value) pairs built over a list. -/
lemma seriesGet_map (l : List String) (f : String → Nat) (k : String) (d : Nat) :
    seriesGet (l.map (fun v => (v, f v))) k d = if k ∈ l then f k else d := by
  induction l with
  | nil => simp [seriesGet]
  | cons h t ih =>
    by_cases hk : h = k
    · subst hk
      simp [seriesGet, List.find?_cons]
    · have hne : k ≠ h := fun e => hk e.symm
      have hpred : (((h, f h) : String × Nat).1 == k) = false := by simp [hk]
      have hstep : seriesGet ((h :: t).map (fun v => (v, f v))) k d
          = seriesGet (t.map (fun v => (v, f v))) k d := by
        simp only [List.map_cons, seriesGet, List.find?_cons, hpred]
      rw [hstep, ih]
      simp [List.mem_cons, hne]

/-- Counting a string among the non-null results equals counting the rows
whose result is exactly that string. -/
lemma count_filterMap_result (rows : List Row) (k : String) :
    (rows.filterMap (fun r => r.result)).count k
      = ((rows.filter (fun r => r.result == some k)).length) := by
  induction rows with
  | nil => rfl
  | cons r t ih =>
    cases hres : r.result with
    | none => simp [List.filterMap_cons, List.filter_cons, hres, ih]
    | some s =>
      by_cases hs : s = k
      · subst hs
        simp [List.filterMap_cons, List.filter_cons, hres, List.count_cons, ih]
      · simp [List.filterMap_cons, List.filter_cons, hres, List.count_cons, hs, ih]

/-- The value_counts lookup with default 0 is the exact-match row count. -/
lemma seriesGet_valueCounts (rows : List Row) (k : String) :
    seriesGet (valueCounts rows) k 0
      = ((rows.filter (fun r => r.result == some k)).length) := by
  unfold valueCounts
  rw [seriesGet_map]
  by_cases hk : k ∈ rows.filterMap (fun r => r.result)
  · rw [if_pos (List.mem_dedup.2 hk)]
    exact count_filterMap_result rows k
  · rw [if_neg (fun hmem => hk (List.mem_dedup.1 hmem))]
    rw [← count_filterMap_result rows k]
    exact (List.count_eq_zero.2 hk).symm

/-- Reasons a record in either output list comes from: some row of the
dataset, mapped through buildRecord. -/
lemma mem_outputs (answers : List (Int × Json)) (df : List Row)
    (rec : ClassifiedRecord)
    (h : rec ∈ excludedTasks answers df ++ includedTasks answers df) :
    ∃ row, row ∈ df ∧ rec = buildRecord answers row := by
  rcases List.mem_append.1 h with h1 | h1
  · obtain ⟨row, hrow, hb⟩ := List.mem_map.1 h1
    exact ⟨row, (List.mem_filter.1 hrow).1, hb.symm⟩
  · obtain ⟨row, hrow, hb⟩ := List.mem_map.1 h1
    exact ⟨row, (List.mem_filter.1 hrow).1, hb.symm⟩

/-- Every dataset row produces a record in one of the two output lists. -/
lemma buildRecord_mem_outputs (answers : List (Int × Json)) (df : List Row)
    (row : Row) (h : row ∈ df) :
    buildRecord answers row ∈ excludedTasks answers df ++ includedTasks answers df := by
  by_cases himp : isImpossible row
  · exact List.mem_append_left _
      (List.mem_map.2 ⟨row, List.mem_filter.2 ⟨h, himp⟩, rfl⟩)
  · refine List.mem_append_right _
      (List.mem_map.2 ⟨row, List.mem_filter.2 ⟨h, ?_⟩, rfl⟩)
    simp [himp]

/-- C1: classification is an exact partition of the dataset: the two
subsets permute the rows, every row value keeps its multiplicity across
the split, no value sits in both subsets, the two subset sizes add up to
the dataset size, and the reported summary_statistics counts satisfy
impossible_tasks + possible_tasks = total_tasks. -/
theorem classification_exact_partition (df : List Row) :
    (impossibleTasks df).length + (possibleTasks df).length = df.length
    ∧ (impossibleTasks df ++ possibleTasks df).Perm df
    ∧ (∀ r : Row, (impossibleTasks df).count r + (possibleTasks df).count r = df.count r)
    ∧ (∀ r : Row, r ∈ impossibleTasks df → r ∉ possibleTasks df)
    ∧ (summaryStatistics df).impossible_tasks + (summaryStatistics df).possible_tasks
        = (summaryStatistics df).total_tasks := by
  refine ⟨length_partition df, partition_perm df, count_partition df, ?_, ?_⟩
  · intro r hi hp
    have h1 := (List.mem_filter.1 hi).2
    have h2 := (List.mem_filter.1 hp).2
    simp [h1] at h2
  · simpa [summaryStatistics] using length_partition df

/-- C1 witness: the partition facts evaluated on the concrete 3-row
scenario dataset, with the disjointness hypothesis discharged at the
excluded row. -/
theorem classification_exact_partition_witness :
    ((impossibleTasks exampleRows).length + (possibleTasks exampleRows).length
        = exampleRows.length)
    ∧ ((impossibleTasks exampleRows).count exRow2 + (possibleTasks exampleRows).count exRow2
        = exampleRows.count exRow2)
    ∧ exRow2 ∉ possibleTasks exampleRows
    ∧ (summaryStatistics exampleRows).impossible_tasks
        + (summaryStatistics exampleRows).possible_tasks
        = (summaryStatistics exampleRows).total_tasks :=
  ⟨(classification_exact_partition exampleRows).1,
   (classification_exact_partition exampleRows).2.2.1 exRow2,
   (classification_exact_partition exampleRows).2.2.2.1 exRow2 (by decide),
   (classification_exact_partition exampleRows).2.2.2.2⟩

/-- C2: pass_count is the number of possible rows whose result is exactly
the string PASS (0 when absent, via the value_counts lookup), fail_count
is possible_total minus pass_count, and the two add back up to
possible_total. -/
theorem pass_fail_complement (df : List Row) :
    passCount df = ((possibleTasks df).filter (fun r => r.result == some "PASS")).length
    ∧ failCount df = possibleTotal df - passCount df
    ∧ passCount df + failCount df = possibleTotal df := by
  have hpc : passCount df
      = ((possibleTasks df).filter (fun r => r.result == some "PASS")).length :=
    seriesGet_valueCounts (possibleTasks df) "PASS"
  have hle : passCount df ≤ possibleTotal df := by
    rw [hpc]
    exact List.length_filter_le _ _
  exact ⟨hpc, rfl, by unfold failCount; omega⟩

/-- C2 witness: the pass/fail bookkeeping evaluated on the concrete 3-row
scenario dataset. -/
theorem pass_fail_complement_witness :
    passCount exampleRows
        = ((possibleTasks exampleRows).filter (fun r => r.result == some "PASS")).length
    ∧ failCount exampleRows = possibleTotal exampleRows - passCount exampleRows
    ∧ passCount exampleRows + failCount exampleRows = possibleTotal exampleRows :=
  pass_fail_complement exampleRows

/-- C3: on the empty dataset the classifier yields two empty subsets, but
the run then dies with ZeroDivisionError in the rate computation
(pass_count/total_possible with both equal to 0, line 77) and writes no
output, instead of reporting 0 possible tasks as the spec asks. -/
theorem empty_dataset_crash :
    impossibleTasks ([] : List Row) = []
    ∧ possibleTasks ([] : List Row) = []
    ∧ analyze answersEx ([] : List Row) = Except.error "ZeroDivisionError"
    ∧ runScript (some ([] : List TestDef)) (some ([] : List Row))
        = (some "ZeroDivisionError", []) :=
  ⟨rfl, rfl, rfl, rfl⟩

/-- C4: membership in the impossible subset depends only on the result
cell, is the exact membership test against the two exclusion labels, rows
keep their multiplicity (no task_id deduplication), and a missing/null
result lands the row in the possible subset. -/
theorem classifier_result_only (df : List Row) (r : Row) :
    (∀ r2 : Row, r.result = r2.result → isImpossible r = isImpossible r2)
    ∧ (isImpossible r = true ↔
        (r.result = some "Exclude - Invalid Answer"
          ∨ r.result = some "Exclude - Invalid Environment"))
    ∧ (r ∈ impossibleTasks df ↔ r ∈ df ∧ isImpossible r = true)
    ∧ (r ∈ possibleTasks df ↔ r ∈ df ∧ isImpossible r = false)
    ∧ (r.result = none → isImpossible r = false)
    ∧ (impossibleTasks df).count r + (possibleTasks df).count r = df.count r := by
  refine ⟨?_, ?_, ?_, ?_, ?_, count_partition df r⟩
  · intro r2 h
    simp [isImpossible, h]
  · cases hres : r.result with
    | none => simp [isImpossible, seriesIsin, hres]
    | some s =>
      simp [isImpossible, seriesIsin, hres, impossibleLabels, List.contains,
        List.elem_iff, List.mem_cons]
  · simp [impossibleTasks, List.mem_filter]
  · simp [possibleTasks, List.mem_filter]
  · intro h
    simp [isImpossible, seriesIsin, h]

/-- C4 witness: a row with a missing result cell is classified possible,
and the subset membership tests evaluated on a concrete singleton
dataset. -/
theorem classifier_result_only_witness :
    isImpossible exRowNull = false
    ∧ (exRowNull ∈ possibleTasks [exRowNull] ↔
        exRowNull ∈ [exRowNull] ∧ isImpossible exRowNull = false)
    ∧ isImpossible exRow2 = isImpossible exRow2 :=
  ⟨(classifier_result_only [exRowNull] exRowNull).2.2.2.2.1 rfl,
   (classifier_result_only [exRowNull] exRowNull).2.2.2.1,
   (classifier_result_only [exRow2] exRow2).1 exRow2 rfl⟩

/-- C7: a missing/unreadable input file (either of the two loads) aborts
the run with an error before any output file is written: the performed
write list is empty. -/
theorem load_failure_no_output (tests : Option (List TestDef)) (csv : Option (List Row))
    (h : tests = none ∨ csv = none) :
    (runScript tests csv).2 = [] ∧ (runScript tests csv).1.isSome = true := by
  rcases h with rfl | rfl
  · exact ⟨rfl, rfl⟩
  · cases tests with
    | none => exact ⟨rfl, rfl⟩
    | some ts => exact ⟨rfl, rfl⟩

/-- C7 witness: the missing task-definition file on the concrete scenario
dataset leaves no output artifact. -/
theorem load_failure_no_output_witness :
    (runScript none (some exampleRows)).2 = []
    ∧ (runScript none (some exampleRows)).1.isSome = true :=
  load_failure_no_output none (some exampleRows) (Or.inl rfl)

/-- C8: the concrete 3-row scenario: one impossible task, two possible
tasks, one pass, one fail, and a pass rate of exactly 50, as carried into
the emitted detailed report. -/
theorem scenario_three_rows :
    (summaryStatistics exampleRows).impossible_tasks = 1
    ∧ (summaryStatistics exampleRows).possible_tasks = 2
    ∧ (possibleTasksResults exampleRows).pass_count = 1
    ∧ (possibleTasksResults exampleRows).fail_count = 1
    ∧ (possibleTasksResults exampleRows).pass_rate = 50
    ∧ analyze ([] : List (Int × Json)) exampleRows
        = Except.ok (detailedReport [] exampleRows, summaryReport exampleRows) := by
  refine ⟨by decide, by decide, by decide, by decide, ?_, rfl⟩
  show passRate exampleRows = 50
  have h1 : passCount exampleRows = 1 := by decide
  have h2 : possibleTotal exampleRows = 2 := by decide
  rw [passRate, h1, h2]
  norm_num

/-- C9: the summary report and the detailed report agree on every shared
statistic: total tasks, excluded/impossible count, included/possible
count, pass rate and fail rate; and whatever documents analyze emits are
exactly these builders. -/
theorem reports_agree (answers : List (Int × Json)) (df : List Row) :
    (summaryReport df).total_tasks = (summaryStatistics df).total_tasks
    ∧ (summaryReport df).excluded_count = (summaryStatistics df).impossible_tasks
    ∧ (summaryReport df).included_count = (summaryStatistics df).possible_tasks
    ∧ (summaryReport df).pass_rate_possible_only = (possibleTasksResults df).pass_rate
    ∧ (summaryReport df).fail_rate_possible_only = (possibleTasksResults df).fail_rate
    ∧ (∀ d s, analyze answers df = Except.ok (d, s) →
        d.summary_statistics = summaryStatistics df
        ∧ d.possible_tasks_results = possibleTasksResults df
        ∧ s = summaryReport df) := by
  refine ⟨rfl, rfl, rfl, rfl, rfl, ?_⟩
  intro d s h
  by_cases hz : possibleTotal df = 0
  · rw [analyze, if_pos hz] at h
    exact absurd h (by simp)
  · rw [analyze, if_neg hz] at h
    injection h with hpair
    injection hpair with hd hs
    subst hd
    subst hs
    exact ⟨rfl, rfl, rfl⟩

/-- C9 witness: the agreement evaluated on the concrete scenario dataset,
with the emitted-document hypothesis discharged by computation. -/
theorem reports_agree_witness :
    (summaryReport exampleRows).pass_rate_possible_only
        = (possibleTasksResults exampleRows).pass_rate
    ∧ (detailedReport answersEx exampleRows).summary_statistics
        = summaryStatistics exampleRows
    ∧ (detailedReport answersEx exampleRows).possible_tasks_results
        = possibleTasksResults exampleRows :=
  ⟨(reports_agree answersEx exampleRows).2.2.2.1,
   ((reports_agree answersEx exampleRows).2.2.2.2.2
      (detailedReport answersEx exampleRows) (summaryReport exampleRows) rfl).1,
   ((reports_agree answersEx exampleRows).2.2.2.2.2
      (detailedReport answersEx exampleRows) (summaryReport exampleRows) rfl).2.1⟩

/-- C5: every record in either output list carries as expected_answer the
answer-map entry for its integer task_id, or the literal string Unknown
when the map has no entry for that task_id. -/
theorem expected_answer_lookup (answers : List (Int × Json)) (df : List Row)
    (rec : ClassifiedRecord)
    (h : rec ∈ excludedTasks answers df ++ includedTasks answers df) :
    rec.expected_answer = expectedAnswerFor answers rec.task_id
    ∧ (∀ v, dictFind answers rec.task_id = some v → rec.expected_answer = v)
    ∧ (dictFind answers rec.task_id = none → rec.expected_answer = Json.str "Unknown") := by
  obtain ⟨row, hmem, hb⟩ := mem_outputs answers df rec h
  subst hb
  refine ⟨rfl, ?_, ?_⟩
  · intro v hv
    have hv2 : dictFind answers row.task_id = some v := hv
    show expectedAnswerFor answers row.task_id = v
    unfold expectedAnswerFor
    rw [hv2]
  · intro hv
    have hv2 : dictFind answers row.task_id = none := hv
    show expectedAnswerFor answers row.task_id = Json.str "Unknown"
    unfold expectedAnswerFor
    rw [hv2]

/-- C5 witness: the lookup property evaluated at a concrete record of the
included list of the scenario dataset. -/
theorem expected_answer_lookup_witness :
    (buildRecord answersEx exRow1).expected_answer
      = expectedAnswerFor answersEx (buildRecord answersEx exRow1).task_id :=
  (expected_answer_lookup answersEx exampleRows (buildRecord answersEx exRow1)
    (List.Mem.tail _ (List.Mem.head _))).1

/-- C6: the record built from every dataset row sits in one of the two
output lists, its result_override_reason is the row cell unchanged, a
missing cell serializes as null (never as the text "nan"), and a present
cell is kept as the same string. -/
theorem override_reason_null (answers : List (Int × Json)) (df : List Row)
    (row : Row) (h : row ∈ df) :
    buildRecord answers row ∈ excludedTasks answers df ++ includedTasks answers df
    ∧ (buildRecord answers row).result_override_reason = row.result_override_reason
    ∧ (row.result_override_reason = none →
        (buildRecord answers row).result_override_reason = none)
    ∧ (row.result_override_reason = none →
        (buildRecord answers row).result_override_reason ≠ some "nan")
    ∧ (∀ s, row.result_override_reason = some s →
        (buildRecord answers row).result_override_reason = some s) := by
  have hid : (buildRecord answers row).result_override_reason
      = row.result_override_reason := by
    show overrideReasonField row.result_override_reason = row.result_override_reason
    cases hv : row.result_override_reason with
    | none => simp [overrideReasonField]
    | some s => simp [overrideReasonField, pyStr]
  refine ⟨buildRecord_mem_outputs answers df row h, hid, ?_, ?_, ?_⟩
  · intro hv
    rw [hid, hv]
  · intro hv
    rw [hid, hv]
    simp
  · intro s hv
    rw [hid, hv]

/-- C6 witness: a concrete row with a missing override reason yields a
record whose field is null, not the text "nan". -/
theorem override_reason_null_witness :
    (buildRecord answersEx exRowNull).result_override_reason = none
    ∧ (buildRecord answersEx exRowNull).result_override_reason ≠ some "nan" :=
  ⟨(override_reason_null answersEx [exRowNull] exRowNull (List.Mem.head _)).2.2.1 rfl,
   (override_reason_null answersEx [exRowNull] exRowNull (List.Mem.head _)).2.2.2.1 rfl⟩

/-- C10: in every record of the output lists, result, site, intent,
created_at and run_id are unconditionally string-coerced, so each of them
serializes a missing cell as the literal text "nan"; only
result_override_reason gets null substitution. -/
theorem unconditional_str_coercion (answers : List (Int × Json)) (df : List Row)
    (row : Row) (h : row ∈ df) :
    buildRecord answers row ∈ excludedTasks answers df ++ includedTasks answers df
    ∧ (buildRecord answers row).result = pyStr row.result
    ∧ (buildRecord answers row).site = pyStr row.site
    ∧ (buildRecord answers row).intent = pyStr row.intent
    ∧ (buildRecord answers row).created_at = pyStr row.created_at
    ∧ (buildRecord answers row).run_id = pyStr row.run_id
    ∧ (row.result = none → (buildRecord answers row).result = "nan")
    ∧ (row.site = none → (buildRecord answers row).site = "nan")
    ∧ (row.intent = none → (buildRecord answers row).intent = "nan")
    ∧ (row.created_at = none → (buildRecord answers row).created_at = "nan")
    ∧ (row.run_id = none → (buildRecord answers row).run_id = "nan")
    ∧ (row.result_override_reason = none →
        (buildRecord answers row).result_override_reason = none) := by
  refine ⟨buildRecord_mem_outputs answers df row h, rfl, rfl, rfl, rfl, rfl,
    ?_, ?_, ?_, ?_, ?_, ?_⟩
  · intro hv
    simp [buildRecord, hv, pyStr]
  · intro hv
    simp [buildRecord, hv, pyStr]
  · intro hv
    simp [buildRecord, hv, pyStr]
  · intro hv
    simp [buildRecord, hv, pyStr]
  · intro hv
    simp [buildRecord, hv, pyStr]
  · intro hv
    simp [buildRecord, hv, overrideReasonField]

/-- C10 witness: a concrete all-missing row yields "nan" texts in the
string-coerced fields and null only in result_override_reason. -/
theorem unconditional_str_coercion_witness :
    (buildRecord answersEx exRowNull).site = "nan"
    ∧ (buildRecord answersEx exRowNull).result = "nan"
    ∧ (buildRecord answersEx exRowNull).result_override_reason = none :=
  ⟨(unconditional_str_coercion answersEx [exRowNull] exRowNull (List.Mem.head _)).2.2.2.2.2.2.2.1 rfl,
   (unconditional_str_coercion answersEx [exRowNull] exRowNull (List.Mem.head _)).2.2.2.2.2.2.1 rfl,
   (unconditional_str_coercion answersEx [exRowNull] exRowNull (List.Mem.head _)).2.2.2.2.2.2.2.2.2.2.2 rfl⟩
